import Mathlib

/-!
Shallow embedding of the maindmap LLM relay (src/maind-map/LLM_proxy.py and
src/maind-map/claude_proxy.py).

The relay is a pair of Flask handlers, `proxy_to_claude` and
`proxy_to_chatgpt`, each of which parses the inbound JSON body, builds a
prompt string, posts a provider-specific payload to the upstream LLM API, and
maps the upstream reply into a uniform envelope.  Python values flowing
through the handlers are modelled by a small JSON type; Python exceptions by
a type carrying the text of `str(e)`; the network by a function from the
outbound request to either an exception or an HTTP response supplied by the
environment.  A Flask `return jsonify(x)` is the pair `(200, x)`, and
`return jsonify(x), 500` is `(500, x)`.
-/

/-- A JSON value, the shape of Python data handled by the relay. -/
inductive Json where
  | null : Json
  | bool : Bool → Json
  | num : Int → Json
  | str : String → Json
  | arr : List Json → Json
  | obj : List (String × Json) → Json

/-- A Python exception as observed at the handler boundary: the handlers only
ever use `str(e)`, which is the `msg` field. -/
structure PyExc where
  msg : String
deriving DecidableEq

/-- An upstream HTTP response as the handlers consume it:
`status_code`, the raw body `text`, and `jsonE`, the outcome of
`response.json()` (the parsed body, or the decode exception). -/
structure HttpResponse where
  status_code : Nat
  text : String
  jsonE : Except PyExc Json

/-- The outbound HTTP request a handler passes to `requests.post`. -/
structure OutboundRequest where
  url : String
  headers : List (String × String)
  payload : Json

mutual

/-- Python `repr()` on the JSON fragment the relay handles (escaping of
quotes inside strings is not modelled; no claim exercises it). -/
def pyRepr : Json → String
  | Json.null => "None"
  | Json.bool true => "True"
  | Json.bool false => "False"
  | Json.num n => toString n
  | Json.str s => "\x27" ++ s ++ "\x27"
  | Json.arr l => "[" ++ pyReprList l ++ "]"
  | Json.obj d => "\x7b" ++ pyReprObj d ++ "\x7d"

/-- Comma-separated `repr()` of the elements of a Python list. -/
def pyReprList : List Json → String
  | [] => ""
  | [j] => pyRepr j
  | j :: rest => pyRepr j ++ ", " ++ pyReprList rest

/-- Comma-separated `repr()` of the items of a Python dict. -/
def pyReprObj : List (String × Json) → String
  | [] => ""
  | [(k, v)] => "\x27" ++ k ++ "\x27: " ++ pyRepr v
  | (k, v) :: rest => "\x27" ++ k ++ "\x27: " ++ pyRepr v ++ ", " ++ pyReprObj rest

end

/-- Python `str()` as an f-string interpolates a value. -/
def fstr : Json → String
  | Json.str s => s
  | j => pyRepr j

/-- Python `data.get(key, default)`: succeeds on a dict, raises
`AttributeError` on anything else (`request.json` may be any JSON value, or
`None`). -/
def pyDictGet (data : Json) (key : String) (dflt : Json) : Except PyExc Json :=
  match data with
  | Json.obj d =>
      Except.ok (match d.find? (fun p => p.1 == key) with
                 | some p => p.2
                 | none => dflt)
  | Json.null => Except.error ⟨"\x27NoneType\x27 object has no attribute \x27get\x27"⟩
  | Json.arr _ => Except.error ⟨"\x27list\x27 object has no attribute \x27get\x27"⟩
  | Json.str _ => Except.error ⟨"\x27str\x27 object has no attribute \x27get\x27"⟩
  | Json.bool _ => Except.error ⟨"\x27bool\x27 object has no attribute \x27get\x27"⟩
  | Json.num _ => Except.error ⟨"\x27int\x27 object has no attribute \x27get\x27"⟩

/-- Python subscripting `j[key]` with a string key. -/
def pyGetItemS (j : Json) (key : String) : Except PyExc Json :=
  match j with
  | Json.obj d =>
      match d.find? (fun p => p.1 == key) with
      | some p => Except.ok p.2
      | none => Except.error ⟨"\x27" ++ key ++ "\x27"⟩
  | Json.arr _ =>
      Except.error ⟨"list indices must be integers or slices, not str"⟩
  | Json.str _ => Except.error ⟨"string indices must be integers"⟩
  | _ => Except.error ⟨"object is not subscriptable"⟩

/-- Python subscripting `j[i]` with a non-negative integer index. -/
def pyGetItemN (j : Json) (i : Nat) : Except PyExc Json :=
  match j with
  | Json.arr l =>
      match l.get? i with
      | some v => Except.ok v
      | none => Except.error ⟨"list index out of range"⟩
  | Json.obj _ => Except.error ⟨toString i⟩
  | Json.str s =>
      match (s.data.get? i) with
      | some c => Except.ok (Json.str (String.singleton c))
      | none => Except.error ⟨"string index out of range"⟩
  | _ => Except.error ⟨"object is not subscriptable"⟩

/-- `ping` of LLM_proxy.py: ignores the request and returns a static
envelope with HTTP 200. -/
def ping (_request_body : Json) : Nat × Json :=
  (200, Json.obj [("success", Json.bool true), ("message", Json.str "Pong!")])

/-- The prompt built on the `message = f"..."` line of `proxy_to_claude`
in LLM_proxy.py. -/
def claude_message (question freemind_xml : Json) : String :=
  "Using the mind map represented by the following Freemind XML, please answer the following question: "
    ++ fstr question ++ "\n\n" ++ fstr freemind_xml

/-- The prompt built on the `message = f"..."` line of `proxy_to_chatgpt`
in LLM_proxy.py. -/
def chatgpt_message (question freemind_xml : Json) : String :=
  "Using the mind map represented by the following Freemind XML, please answer the following question: "
    ++ fstr question ++ "\n\n" ++ fstr freemind_xml

/-- The prompt built on the `message = f"..."` line of `proxy_to_claude`
in claude_proxy.py (the standalone single-provider server). -/
def claude_proxy_message (question freemind_xml : Json) : String :=
  "Using the mind map represented by the following Freemind XML, please answer the following question: "
    ++ fstr question ++ "\n\n" ++ fstr freemind_xml

/-- The outbound request `proxy_to_claude` builds: the Claude URL, headers
and payload of LLM_proxy.py. -/
def claudeOutbound (CLAUDE_API_KEY message : String) : OutboundRequest :=
  { url := "https://api.anthropic.com/v1/messages"
  , headers :=
      [ ("Content-Type", "application/json")
      , ("x-api-key", CLAUDE_API_KEY)
      , ("anthropic-version", "2023-06-01") ]
  , payload :=
      Json.obj
        [ ("model", Json.str "claude-3-haiku-20240307")
        , ("max_tokens", Json.num 4000)
        , ("messages", Json.arr
            [ Json.obj
                [ ("role", Json.str "user")
                , ("content", Json.str message) ] ]) ] }

/-- The outbound request `proxy_to_chatgpt` builds: the OpenAI URL, headers
and payload of LLM_proxy.py. -/
def chatgptOutbound (OPENAI_API_KEY message : String) : OutboundRequest :=
  { url := "https://api.openai.com/v1/chat/completions"
  , headers :=
      [ ("Content-Type", "application/json")
      , ("Authorization", "Bearer " ++ OPENAI_API_KEY) ]
  , payload :=
      Json.obj
        [ ("model", Json.str "gpt-3.5-turbo")
        , ("max_tokens", Json.num 4000)
        , ("messages", Json.arr
            [ Json.obj
                [ ("role", Json.str "user")
                , ("content", Json.str message) ] ]) ] }

/-- The expression `claude_response[\x27content\x27][0][\x27text\x27]` of
`proxy_to_claude`. -/
def claudeExtractText (claude_response : Json) : Except PyExc Json := do
  let a ← pyGetItemS claude_response "content"
  let b ← pyGetItemN a 0
  pyGetItemS b "text"

/-- The expression
`openai_response[\x27choices\x27][0][\x27message\x27][\x27content\x27]` of
`proxy_to_chatgpt`. -/
def chatgptExtractText (openai_response : Json) : Except PyExc Json := do
  let a ← pyGetItemS openai_response "choices"
  let b ← pyGetItemN a 0
  let c ← pyGetItemS b "message"
  pyGetItemS c "content"

/-- The body of the `try` block of `proxy_to_claude` in LLM_proxy.py:
parse the inbound request, build the prompt and outbound request, post it,
and map the upstream reply. -/
def proxy_to_claude_try (CLAUDE_API_KEY : String)
    (request_json : Except PyExc Json)
    (post : OutboundRequest → Except PyExc HttpResponse) :
    Except PyExc (Nat × Json) := do
  let data ← request_json
  let question ← pyDictGet data "question" (Json.str "")
  let freemind_xml ← pyDictGet data "freemind_xml" (Json.str "")
  let message := claude_message question freemind_xml
  let response ← post (claudeOutbound CLAUDE_API_KEY message)
  if response.status_code == 200 then
    let claude_response ← response.jsonE
    let t ← claudeExtractText claude_response
    pure (200, Json.obj [("success", Json.bool true), ("response", t)])
  else
    pure (500, Json.obj
      [ ("success", Json.bool false)
      , ("error", Json.str ("API error: " ++ toString response.status_code))
      , ("details", Json.str response.text) ])

/-- The handler `proxy_to_claude` of LLM_proxy.py: the try block, with its
`except Exception` clause folding any exception into the uniform error
envelope with HTTP 500. -/
def proxy_to_claude (CLAUDE_API_KEY : String)
    (request_json : Except PyExc Json)
    (post : OutboundRequest → Except PyExc HttpResponse) : Nat × Json :=
  match proxy_to_claude_try CLAUDE_API_KEY request_json post with
  | Except.ok r => r
  | Except.error e =>
      (500, Json.obj [("success", Json.bool false), ("error", Json.str e.msg)])

/-- The body of the `try` block of `proxy_to_chatgpt` in LLM_proxy.py. -/
def proxy_to_chatgpt_try (OPENAI_API_KEY : String)
    (request_json : Except PyExc Json)
    (post : OutboundRequest → Except PyExc HttpResponse) :
    Except PyExc (Nat × Json) := do
  let data ← request_json
  let question ← pyDictGet data "question" (Json.str "")
  let freemind_xml ← pyDictGet data "freemind_xml" (Json.str "")
  let message := chatgpt_message question freemind_xml
  let response ← post (chatgptOutbound OPENAI_API_KEY message)
  if response.status_code == 200 then
    let openai_response ← response.jsonE
    let t ← chatgptExtractText openai_response
    pure (200, Json.obj [("success", Json.bool true), ("response", t)])
  else
    pure (500, Json.obj
      [ ("success", Json.bool false)
      , ("error", Json.str ("API error: " ++ toString response.status_code))
      , ("details", Json.str response.text) ])

/-- The handler `proxy_to_chatgpt` of LLM_proxy.py. -/
def proxy_to_chatgpt (OPENAI_API_KEY : String)
    (request_json : Except PyExc Json)
    (post : OutboundRequest → Except PyExc HttpResponse) : Nat × Json :=
  match proxy_to_chatgpt_try OPENAI_API_KEY request_json post with
  | Except.ok r => r
  | Except.error e =>
      (500, Json.obj [("success", Json.bool false), ("error", Json.str e.msg)])

/-- Field lookup in a JSON object (observation helper for the theorems). -/
def jlookup (j : Json) (k : String) : Option Json :=
  match j with
  | Json.obj d => (d.find? (fun p => p.1 == k)).map (fun p => p.2)
  | _ => none

/-- The prompt carried by an outbound payload: the `content` of its single
message, when the payload has exactly one message. -/
def payloadPrompt (ob : OutboundRequest) : Option Json :=
  match jlookup ob.payload "messages" with
  | some (Json.arr [m]) => jlookup m "content"
  | _ => none

/-- The OutboundEnvelope invariant of the spec: `success=true` implies
`response` present and `error`/`details` absent; `success=false` implies
`error` present. -/
def envelopeInv (j : Json) : Prop :=
  (jlookup j "success" = some (Json.bool true) →
    (jlookup j "response").isSome ∧
    (jlookup j "error").isNone ∧ (jlookup j "details").isNone) ∧
  (jlookup j "success" = some (Json.bool false) →
    (jlookup j "error").isSome)

/-! ## Claim theorems -/

/-- C9: `ping` returns the static envelope `success:true, message:"Pong!"`
with HTTP 200, independent of any request body; it is a pure function, so
invoking it has no effect on any state. -/
theorem ping_static_envelope :
    ∀ body : Json,
      ping body
        = (200, Json.obj [("success", Json.bool true), ("message", Json.str "Pong!")]) :=
  fun _ => rfl

/-- C10: the three duplicated prompt builders — in `proxy_to_claude` and
`proxy_to_chatgpt` of LLM_proxy.py, and in `proxy_to_claude` of
claude_proxy.py — are extensionally equal functions. -/
theorem prompt_builders_agree :
    ∀ question freemind_xml : Json,
      claude_message question freemind_xml = chatgpt_message question freemind_xml ∧
      chatgpt_message question freemind_xml = claude_proxy_message question freemind_xml :=
  fun _ _ => ⟨rfl, rfl⟩

/-- C1: for every pair of strings, the prompt both handlers place into the
outbound payload is exactly the fixed instruction string, then the
question, then two newline characters, then the Freemind XML, verbatim. -/
theorem prompt_is_exact_concatenation :
    ∀ (claudeKey openaiKey question freemind_xml : String),
      payloadPrompt (claudeOutbound claudeKey
          (claude_message (Json.str question) (Json.str freemind_xml)))
        = some (Json.str
            ("Using the mind map represented by the following Freemind XML, please answer the following question: "
              ++ question ++ "\n\n" ++ freemind_xml)) ∧
      payloadPrompt (chatgptOutbound openaiKey
          (chatgpt_message (Json.str question) (Json.str freemind_xml)))
        = some (Json.str
            ("Using the mind map represented by the following Freemind XML, please answer the following question: "
              ++ question ++ "\n\n" ++ freemind_xml)) :=
  fun _ _ _ _ => ⟨rfl, rfl⟩

/-- C8: for every inbound request, each handler's outbound payload has the
fixed model identifier (independent of the request), `max_tokens` 4000 and
exactly one message with role `user` carrying the prompt; the Claude
handler sends the `x-api-key` and `anthropic-version: 2023-06-01` headers
and the ChatGPT handler sends `Authorization: Bearer` with its
credential. -/
theorem outbound_request_shape :
    ∀ (claudeKey openaiKey : String) (question freemind_xml : Json),
      jlookup (claudeOutbound claudeKey (claude_message question freemind_xml)).payload "model"
        = some (Json.str "claude-3-haiku-20240307") ∧
      jlookup (claudeOutbound claudeKey (claude_message question freemind_xml)).payload "max_tokens"
        = some (Json.num 4000) ∧
      jlookup (claudeOutbound claudeKey (claude_message question freemind_xml)).payload "messages"
        = some (Json.arr [Json.obj
            [ ("role", Json.str "user")
            , ("content", Json.str (claude_message question freemind_xml)) ]]) ∧
      ("x-api-key", claudeKey)
        ∈ (claudeOutbound claudeKey (claude_message question freemind_xml)).headers ∧
      ("anthropic-version", "2023-06-01")
        ∈ (claudeOutbound claudeKey (claude_message question freemind_xml)).headers ∧
      jlookup (chatgptOutbound openaiKey (chatgpt_message question freemind_xml)).payload "model"
        = some (Json.str "gpt-3.5-turbo") ∧
      jlookup (chatgptOutbound openaiKey (chatgpt_message question freemind_xml)).payload "max_tokens"
        = some (Json.num 4000) ∧
      jlookup (chatgptOutbound openaiKey (chatgpt_message question freemind_xml)).payload "messages"
        = some (Json.arr [Json.obj
            [ ("role", Json.str "user")
            , ("content", Json.str (chatgpt_message question freemind_xml)) ]]) ∧
      ("Authorization", "Bearer " ++ openaiKey)
        ∈ (chatgptOutbound openaiKey (chatgpt_message question freemind_xml)).headers :=
  fun _ _ _ _ =>
    ⟨rfl, rfl, rfl,
     List.mem_cons_of_mem _ (List.mem_cons_self _ _),
     List.mem_cons_of_mem _ (List.mem_cons_of_mem _ (List.mem_cons_self _ _)),
     rfl, rfl, rfl,
     List.mem_cons_of_mem _ (List.mem_cons_self _ _)⟩

/-- C2: when the upstream provider replies with any status other than 200,
both handlers return HTTP 500 with `success:false`, `error` carrying the
upstream status code and `details` carrying the raw upstream body; the
upstream status itself is never used as the caller-facing status. -/
theorem upstream_error_remapped_to_500 :
    ∀ (claudeKey openaiKey : String) (d : List (String × Json)) (resp : HttpResponse),
      resp.status_code ≠ 200 →
      proxy_to_claude claudeKey (Except.ok (Json.obj d)) (fun _ => Except.ok resp)
        = (500, Json.obj
            [ ("success", Json.bool false)
            , ("error", Json.str ("API error: " ++ toString resp.status_code))
            , ("details", Json.str resp.text) ]) ∧
      proxy_to_chatgpt openaiKey (Except.ok (Json.obj d)) (fun _ => Except.ok resp)
        = (500, Json.obj
            [ ("success", Json.bool false)
            , ("error", Json.str ("API error: " ++ toString resp.status_code))
            , ("details", Json.str resp.text) ]) := by
  intro claudeKey openaiKey d resp h
  refine ⟨?_, ?_⟩ <;>
    simp [proxy_to_claude, proxy_to_claude_try, proxy_to_chatgpt, proxy_to_chatgpt_try,
      pyDictGet, Bind.bind, Except.bind, Pure.pure, Except.pure, h]

/-- C2 witness: a concrete 403 upstream reply is remapped to a 500 error
envelope by both handlers. -/
theorem upstream_error_remapped_to_500_witness :
    proxy_to_claude "k" (Except.ok (Json.obj []))
        (fun _ => Except.ok ⟨403, "denied", Except.ok Json.null⟩)
      = (500, Json.obj
          [ ("success", Json.bool false)
          , ("error", Json.str "API error: 403")
          , ("details", Json.str "denied") ]) ∧
    proxy_to_chatgpt "k" (Except.ok (Json.obj []))
        (fun _ => Except.ok ⟨403, "denied", Except.ok Json.null⟩)
      = (500, Json.obj
          [ ("success", Json.bool false)
          , ("error", Json.str "API error: 403")
          , ("details", Json.str "denied") ]) :=
  upstream_error_remapped_to_500 "k" "k" [] ⟨403, "denied", Except.ok Json.null⟩ (by decide)

/-- C3: when the upstream provider replies 200 with a well-formed body,
each handler returns HTTP 200 with `success:true` and `response` equal to
the provider's extracted text span, verbatim. -/
theorem upstream_200_passthrough :
    ∀ (claudeKey openaiKey : String) (d : List (String × Json))
      (respC respG : HttpResponse) (bodyC bodyG tC tG : Json),
      respC.status_code = 200 → respC.jsonE = Except.ok bodyC →
      claudeExtractText bodyC = Except.ok tC →
      respG.status_code = 200 → respG.jsonE = Except.ok bodyG →
      chatgptExtractText bodyG = Except.ok tG →
      proxy_to_claude claudeKey (Except.ok (Json.obj d)) (fun _ => Except.ok respC)
        = (200, Json.obj [("success", Json.bool true), ("response", tC)]) ∧
      proxy_to_chatgpt openaiKey (Except.ok (Json.obj d)) (fun _ => Except.ok respG)
        = (200, Json.obj [("success", Json.bool true), ("response", tG)]) := by
  intro claudeKey openaiKey d respC respG bodyC bodyG tC tG h1 h2 h3 h4 h5 h6
  refine ⟨?_, ?_⟩ <;>
    simp [proxy_to_claude, proxy_to_claude_try, proxy_to_chatgpt, proxy_to_chatgpt_try,
      pyDictGet, Bind.bind, Except.bind, Pure.pure, Except.pure, h1, h2, h3, h4, h5, h6]

/-- C3 witness: a concrete well-formed 200 reply from each provider is
passed through verbatim. -/
theorem upstream_200_passthrough_witness :
    proxy_to_claude "k" (Except.ok (Json.obj []))
        (fun _ => Except.ok ⟨200, "raw",
          Except.ok (Json.obj [("content",
            Json.arr [Json.obj [("text", Json.str "Paris")]])])⟩)
      = (200, Json.obj [("success", Json.bool true), ("response", Json.str "Paris")]) ∧
    proxy_to_chatgpt "k" (Except.ok (Json.obj []))
        (fun _ => Except.ok ⟨200, "raw",
          Except.ok (Json.obj [("choices",
            Json.arr [Json.obj [("message",
              Json.obj [("content", Json.str "Paris")])]])])⟩)
      = (200, Json.obj [("success", Json.bool true), ("response", Json.str "Paris")]) :=
  upstream_200_passthrough "k" "k" []
    ⟨200, "raw", Except.ok (Json.obj [("content",
      Json.arr [Json.obj [("text", Json.str "Paris")]])])⟩
    ⟨200, "raw", Except.ok (Json.obj [("choices",
      Json.arr [Json.obj [("message",
        Json.obj [("content", Json.str "Paris")])]])])⟩
    (Json.obj [("content", Json.arr [Json.obj [("text", Json.str "Paris")]])])
    (Json.obj [("choices", Json.arr [Json.obj [("message",
      Json.obj [("content", Json.str "Paris")])]])])
    (Json.str "Paris") (Json.str "Paris")
    rfl rfl rfl rfl rfl rfl

/-- C4: every exception raised during handling — a failure to parse the
inbound request, or a transport-level failure of the outbound call — is
caught; both handlers return HTTP 500 with `success:false` and `error`
equal to the exception's message, which is non-empty whenever the raised
exception renders non-empty; nothing propagates out of the handler. -/
theorem exceptions_folded_to_error_envelope :
    ∀ (claudeKey openaiKey : String) (d : List (String × Json)) (e : PyExc)
      (post : OutboundRequest → Except PyExc HttpResponse),
      e.msg ≠ "" →
      proxy_to_claude claudeKey (Except.error e) post
        = (500, Json.obj [("success", Json.bool false), ("error", Json.str e.msg)]) ∧
      proxy_to_chatgpt openaiKey (Except.error e) post
        = (500, Json.obj [("success", Json.bool false), ("error", Json.str e.msg)]) ∧
      proxy_to_claude claudeKey (Except.ok (Json.obj d)) (fun _ => Except.error e)
        = (500, Json.obj [("success", Json.bool false), ("error", Json.str e.msg)]) ∧
      proxy_to_chatgpt openaiKey (Except.ok (Json.obj d)) (fun _ => Except.error e)
        = (500, Json.obj [("success", Json.bool false), ("error", Json.str e.msg)]) ∧
      Json.str e.msg ≠ Json.str "" := by
  intro claudeKey openaiKey d e post h
  refine ⟨?_, ?_, ?_, ?_, ?_⟩
  · simp [proxy_to_claude, proxy_to_claude_try, Bind.bind, Except.bind]
  · simp [proxy_to_chatgpt, proxy_to_chatgpt_try, Bind.bind, Except.bind]
  · simp [proxy_to_claude, proxy_to_claude_try, pyDictGet, Bind.bind, Except.bind]
  · simp [proxy_to_chatgpt, proxy_to_chatgpt_try, pyDictGet, Bind.bind, Except.bind]
  · intro hh
    injection hh with hh2
    exact h hh2

/-- C4 witness: a concrete transport failure is folded into the error
envelope by both handlers on both failure paths. -/
theorem exceptions_folded_to_error_envelope_witness :
    proxy_to_claude "k" (Except.error ⟨"Connection refused"⟩)
        (fun _ => Except.error ⟨"Connection refused"⟩)
      = (500, Json.obj
          [ ("success", Json.bool false)
          , ("error", Json.str "Connection refused") ]) ∧
    proxy_to_chatgpt "k" (Except.error ⟨"Connection refused"⟩)
        (fun _ => Except.error ⟨"Connection refused"⟩)
      = (500, Json.obj
          [ ("success", Json.bool false)
          , ("error", Json.str "Connection refused") ]) ∧
    proxy_to_claude "k" (Except.ok (Json.obj []))
        (fun _ => Except.error ⟨"Connection refused"⟩)
      = (500, Json.obj
          [ ("success", Json.bool false)
          , ("error", Json.str "Connection refused") ]) ∧
    proxy_to_chatgpt "k" (Except.ok (Json.obj []))
        (fun _ => Except.error ⟨"Connection refused"⟩)
      = (500, Json.obj
          [ ("success", Json.bool false)
          , ("error", Json.str "Connection refused") ]) ∧
    Json.str (PyExc.mk "Connection refused").msg ≠ Json.str "" :=
  exceptions_folded_to_error_envelope "k" "k" [] ⟨"Connection refused"⟩
    (fun _ => Except.error ⟨"Connection refused"⟩) (by decide)

/-- C6: an inbound request missing the `question` or `freemind_xml` field
is never rejected: each absent field is silently read as the empty string,
and both handlers behave exactly as on a request carrying both fields
explicitly set to the empty string. -/
theorem missing_fields_default_to_empty :
    ∀ (claudeKey openaiKey : String) (d : List (String × Json))
      (post : OutboundRequest → Except PyExc HttpResponse),
      (∀ p ∈ d, p.1 ≠ "question") →
      (∀ p ∈ d, p.1 ≠ "freemind_xml") →
      pyDictGet (Json.obj d) "question" (Json.str "") = Except.ok (Json.str "") ∧
      pyDictGet (Json.obj d) "freemind_xml" (Json.str "") = Except.ok (Json.str "") ∧
      proxy_to_claude claudeKey (Except.ok (Json.obj d)) post
        = proxy_to_claude claudeKey
            (Except.ok (Json.obj
              [("question", Json.str ""), ("freemind_xml", Json.str "")])) post ∧
      proxy_to_chatgpt openaiKey (Except.ok (Json.obj d)) post
        = proxy_to_chatgpt openaiKey
            (Except.ok (Json.obj
              [("question", Json.str ""), ("freemind_xml", Json.str "")])) post := by
  intro claudeKey openaiKey d post h1 h2
  have hfq : d.find? (fun p => p.1 == "question") = none :=
    List.find?_eq_none.mpr (fun x hx => by simpa using h1 x hx)
  have hfx : d.find? (fun p => p.1 == "freemind_xml") = none :=
    List.find?_eq_none.mpr (fun x hx => by simpa using h2 x hx)
  refine ⟨?_, ?_, ?_, ?_⟩ <;>
    simp [proxy_to_claude, proxy_to_claude_try, proxy_to_chatgpt, proxy_to_chatgpt_try,
      pyDictGet, Bind.bind, Except.bind, hfq, hfx]

/-- C6 witness: both handlers treat the empty inbound object exactly like
one carrying both fields set to the empty string, with a stubbed transport
failure as the environment. -/
theorem missing_fields_default_to_empty_witness :
    pyDictGet (Json.obj []) "question" (Json.str "") = Except.ok (Json.str "") ∧
    pyDictGet (Json.obj []) "freemind_xml" (Json.str "") = Except.ok (Json.str "") ∧
    proxy_to_claude "k" (Except.ok (Json.obj [])) (fun _ => Except.error ⟨"down"⟩)
      = proxy_to_claude "k"
          (Except.ok (Json.obj
            [("question", Json.str ""), ("freemind_xml", Json.str "")]))
          (fun _ => Except.error ⟨"down"⟩) ∧
    proxy_to_chatgpt "k" (Except.ok (Json.obj [])) (fun _ => Except.error ⟨"down"⟩)
      = proxy_to_chatgpt "k"
          (Except.ok (Json.obj
            [("question", Json.str ""), ("freemind_xml", Json.str "")]))
          (fun _ => Except.error ⟨"down"⟩) :=
  missing_fields_default_to_empty "k" "k" [] (fun _ => Except.error ⟨"down"⟩)
    (by simp) (by simp)

/-! ## Shape of the results a handler can return -/

/-- Every value the `try` block of `proxy_to_claude` returns normally is
either a success envelope or an API-error envelope. -/
lemma proxy_to_claude_try_ok_shape (key : String) (rq : Except PyExc Json)
    (post : OutboundRequest → Except PyExc HttpResponse) (r : Nat × Json)
    (h : proxy_to_claude_try key rq post = Except.ok r) :
    (∃ t, r = (200, Json.obj [("success", Json.bool true), ("response", t)])) ∨
    (∃ (s : Nat) (b : String), r = (500, Json.obj
      [ ("success", Json.bool false)
      , ("error", Json.str ("API error: " ++ toString s))
      , ("details", Json.str b) ])) := by
  unfold proxy_to_claude_try at h
  cases rq with
  | error e => simp [Bind.bind, Except.bind] at h
  | ok data =>
    simp only [Bind.bind, Except.bind] at h
    cases hq : pyDictGet data "question" (Json.str "") with
    | error e => rw [hq] at h; simp at h
    | ok question =>
      rw [hq] at h
      cases hx : pyDictGet data "freemind_xml" (Json.str "") with
      | error e => rw [hx] at h; simp at h
      | ok freemind_xml =>
        rw [hx] at h
        simp only at h
        cases hp : post (claudeOutbound key (claude_message question freemind_xml)) with
        | error e => rw [hp] at h; simp at h
        | ok response =>
          rw [hp] at h
          by_cases hs : response.status_code == 200
          · simp only [hs, if_true] at h
            cases hj : response.jsonE with
            | error e => simp [hj] at h
            | ok body =>
              simp only [hj] at h
              cases he : claudeExtractText body with
              | error e => simp [he] at h
              | ok t =>
                simp only [he, Pure.pure, Except.pure, Except.ok.injEq] at h
                exact Or.inl ⟨t, h.symm⟩
          · simp only [hs, if_false, Bool.false_eq_true, if_neg, ite_false] at h
            simp only [Pure.pure, Except.pure, Except.ok.injEq] at h
            exact Or.inr ⟨response.status_code, response.text, h.symm⟩

/-- Every value the `try` block of `proxy_to_chatgpt` returns normally is
either a success envelope or an API-error envelope. -/
lemma proxy_to_chatgpt_try_ok_shape (key : String) (rq : Except PyExc Json)
    (post : OutboundRequest → Except PyExc HttpResponse) (r : Nat × Json)
    (h : proxy_to_chatgpt_try key rq post = Except.ok r) :
    (∃ t, r = (200, Json.obj [("success", Json.bool true), ("response", t)])) ∨
    (∃ (s : Nat) (b : String), r = (500, Json.obj
      [ ("success", Json.bool false)
      , ("error", Json.str ("API error: " ++ toString s))
      , ("details", Json.str b) ])) := by
  unfold proxy_to_chatgpt_try at h
  cases rq with
  | error e => simp [Bind.bind, Except.bind] at h
  | ok data =>
    simp only [Bind.bind, Except.bind] at h
    cases hq : pyDictGet data "question" (Json.str "") with
    | error e => rw [hq] at h; simp at h
    | ok question =>
      rw [hq] at h
      cases hx : pyDictGet data "freemind_xml" (Json.str "") with
      | error e => rw [hx] at h; simp at h
      | ok freemind_xml =>
        rw [hx] at h
        simp only at h
        cases hp : post (chatgptOutbound key (chatgpt_message question freemind_xml)) with
        | error e => rw [hp] at h; simp at h
        | ok response =>
          rw [hp] at h
          by_cases hs : response.status_code == 200
          · simp only [hs, if_true] at h
            cases hj : response.jsonE with
            | error e => simp [hj] at h
            | ok body =>
              simp only [hj] at h
              cases he : chatgptExtractText body with
              | error e => simp [he] at h
              | ok t =>
                simp only [he, Pure.pure, Except.pure, Except.ok.injEq] at h
                exact Or.inl ⟨t, h.symm⟩
          · simp only [hs, if_false, Bool.false_eq_true, if_neg, ite_false] at h
            simp only [Pure.pure, Except.pure, Except.ok.injEq] at h
            exact Or.inr ⟨response.status_code, response.text, h.symm⟩

/-- `proxy_to_claude` returns a success envelope, an API-error envelope, or
an exception envelope. -/
lemma proxy_to_claude_shape (key : String) (rq : Except PyExc Json)
    (post : OutboundRequest → Except PyExc HttpResponse) :
    (∃ t, proxy_to_claude key rq post
        = (200, Json.obj [("success", Json.bool true), ("response", t)])) ∨
    (∃ (s : Nat) (b : String), proxy_to_claude key rq post
        = (500, Json.obj
            [ ("success", Json.bool false)
            , ("error", Json.str ("API error: " ++ toString s))
            , ("details", Json.str b) ])) ∨
    (∃ m, proxy_to_claude key rq post
        = (500, Json.obj [("success", Json.bool false), ("error", Json.str m)])) := by
  cases hr : proxy_to_claude_try key rq post with
  | ok r =>
    rcases proxy_to_claude_try_ok_shape key rq post r hr with ⟨t, ht⟩ | ⟨s, b, hsb⟩
    · exact Or.inl ⟨t, by simp [proxy_to_claude, hr, ht]⟩
    · exact Or.inr (Or.inl ⟨s, b, by simp [proxy_to_claude, hr, hsb]⟩)
  | error e =>
    exact Or.inr (Or.inr ⟨e.msg, by simp [proxy_to_claude, hr]⟩)

/-- `proxy_to_chatgpt` returns a success envelope, an API-error envelope,
or an exception envelope. -/
lemma proxy_to_chatgpt_shape (key : String) (rq : Except PyExc Json)
    (post : OutboundRequest → Except PyExc HttpResponse) :
    (∃ t, proxy_to_chatgpt key rq post
        = (200, Json.obj [("success", Json.bool true), ("response", t)])) ∨
    (∃ (s : Nat) (b : String), proxy_to_chatgpt key rq post
        = (500, Json.obj
            [ ("success", Json.bool false)
            , ("error", Json.str ("API error: " ++ toString s))
            , ("details", Json.str b) ])) ∨
    (∃ m, proxy_to_chatgpt key rq post
        = (500, Json.obj [("success", Json.bool false), ("error", Json.str m)])) := by
  cases hr : proxy_to_chatgpt_try key rq post with
  | ok r =>
    rcases proxy_to_chatgpt_try_ok_shape key rq post r hr with ⟨t, ht⟩ | ⟨s, b, hsb⟩
    · exact Or.inl ⟨t, by simp [proxy_to_chatgpt, hr, ht]⟩
    · exact Or.inr (Or.inl ⟨s, b, by simp [proxy_to_chatgpt, hr, hsb]⟩)
  | error e =>
    exact Or.inr (Or.inr ⟨e.msg, by simp [proxy_to_chatgpt, hr]⟩)

/-- The success envelope satisfies the OutboundEnvelope invariant. -/
lemma envelopeInv_success (t : Json) :
    envelopeInv (Json.obj [("success", Json.bool true), ("response", t)]) := by
  refine ⟨fun _ => ⟨rfl, rfl, rfl⟩, fun hc => ?_⟩
  simp [jlookup] at hc

/-- The API-error envelope satisfies the OutboundEnvelope invariant. -/
lemma envelopeInv_api_error (s : Nat) (b : String) :
    envelopeInv (Json.obj
      [ ("success", Json.bool false)
      , ("error", Json.str ("API error: " ++ toString s))
      , ("details", Json.str b) ]) := by
  refine ⟨fun hc => ?_, fun _ => rfl⟩
  simp [jlookup] at hc

/-- The exception envelope satisfies the OutboundEnvelope invariant. -/
lemma envelopeInv_exc (m : String) :
    envelopeInv (Json.obj [("success", Json.bool false), ("error", Json.str m)]) := by
  refine ⟨fun hc => ?_, fun _ => rfl⟩
  simp [jlookup] at hc

/-- C7: every envelope returned by either handler satisfies the
OutboundEnvelope invariant: `success:true` comes with `response` and
without `error` or `details`, and `success:false` comes with `error`. -/
theorem returned_envelopes_satisfy_invariant :
    ∀ (claudeKey openaiKey : String) (rq : Except PyExc Json)
      (post : OutboundRequest → Except PyExc HttpResponse),
      envelopeInv (proxy_to_claude claudeKey rq post).2 ∧
      envelopeInv (proxy_to_chatgpt openaiKey rq post).2 := by
  intro claudeKey openaiKey rq post
  constructor
  · rcases proxy_to_claude_shape claudeKey rq post with ⟨t, ht⟩ | ⟨s, b, hsb⟩ | ⟨m, hm⟩
    · rw [ht]; exact envelopeInv_success t
    · rw [hsb]; exact envelopeInv_api_error s b
    · rw [hm]; exact envelopeInv_exc m
  · rcases proxy_to_chatgpt_shape openaiKey rq post with ⟨t, ht⟩ | ⟨s, b, hsb⟩ | ⟨m, hm⟩
    · rw [ht]; exact envelopeInv_success t
    · rw [hsb]; exact envelopeInv_api_error s b
    · rw [hm]; exact envelopeInv_exc m

/-- C5 counterexample: there is no upstream 200 reply with a shape-lacking
body whose extraction failure escapes the handler boundary — in the source
the extraction sits inside the `try` block, so its failure is always folded
into the uniform `success:false, error` envelope, for both handlers. -/
theorem extraction_failure_never_escapes :
    (¬ ∃ (key : String) (d : List (String × Json)) (resp : HttpResponse) (e : PyExc),
        resp.status_code = 200 ∧
        Except.bind resp.jsonE claudeExtractText = Except.error e ∧
        proxy_to_claude key (Except.ok (Json.obj d)) (fun _ => Except.ok resp)
          ≠ (500, Json.obj [("success", Json.bool false), ("error", Json.str e.msg)])) ∧
    (¬ ∃ (key : String) (d : List (String × Json)) (resp : HttpResponse) (e : PyExc),
        resp.status_code = 200 ∧
        Except.bind resp.jsonE chatgptExtractText = Except.error e ∧
        proxy_to_chatgpt key (Except.ok (Json.obj d)) (fun _ => Except.ok resp)
          ≠ (500, Json.obj [("success", Json.bool false), ("error", Json.str e.msg)])) := by
  constructor
  · rintro ⟨key, d, resp, e, h200, hex, hne⟩
    apply hne
    cases hj : resp.jsonE with
    | error e2 =>
      rw [hj] at hex
      simp only [Except.bind] at hex
      injection hex with he2
      subst he2
      simp [proxy_to_claude, proxy_to_claude_try, pyDictGet, Bind.bind, Except.bind,
        h200, hj]
    | ok body =>
      rw [hj] at hex
      simp only [Except.bind] at hex
      simp [proxy_to_claude, proxy_to_claude_try, pyDictGet, Bind.bind, Except.bind,
        h200, hj, hex]
  · rintro ⟨key, d, resp, e, h200, hex, hne⟩
    apply hne
    cases hj : resp.jsonE with
    | error e2 =>
      rw [hj] at hex
      simp only [Except.bind] at hex
      injection hex with he2
      subst he2
      simp [proxy_to_chatgpt, proxy_to_chatgpt_try, pyDictGet, Bind.bind, Except.bind,
        h200, hj]
    | ok body =>
      rw [hj] at hex
      simp only [Except.bind] at hex
      simp [proxy_to_chatgpt, proxy_to_chatgpt_try, pyDictGet, Bind.bind, Except.bind,
        h200, hj, hex]

/-- C5 amended: for every upstream 200 reply whose body lacks the expected
extraction shape, the extraction failure is caught by the handler's broad
`except` clause and folded into the uniform `success:false, error` envelope
with HTTP 500 — it is handled, not left to escape. -/
theorem extraction_failure_folded_to_envelope :
    ∀ (claudeKey openaiKey : String) (d : List (String × Json))
      (respC respG : HttpResponse) (eC eG : PyExc),
      respC.status_code = 200 →
      Except.bind respC.jsonE claudeExtractText = Except.error eC →
      respG.status_code = 200 →
      Except.bind respG.jsonE chatgptExtractText = Except.error eG →
      proxy_to_claude claudeKey (Except.ok (Json.obj d)) (fun _ => Except.ok respC)
        = (500, Json.obj [("success", Json.bool false), ("error", Json.str eC.msg)]) ∧
      proxy_to_chatgpt openaiKey (Except.ok (Json.obj d)) (fun _ => Except.ok respG)
        = (500, Json.obj [("success", Json.bool false), ("error", Json.str eG.msg)]) := by
  intro claudeKey openaiKey d respC respG eC eG h200C hexC h200G hexG
  constructor
  · cases hj : respC.jsonE with
    | error e2 =>
      rw [hj] at hexC
      simp only [Except.bind] at hexC
      injection hexC with he2
      subst he2
      simp [proxy_to_claude, proxy_to_claude_try, pyDictGet, Bind.bind, Except.bind,
        h200C, hj]
    | ok body =>
      rw [hj] at hexC
      simp only [Except.bind] at hexC
      simp [proxy_to_claude, proxy_to_claude_try, pyDictGet, Bind.bind, Except.bind,
        h200C, hj, hexC]
  · cases hj : respG.jsonE with
    | error e2 =>
      rw [hj] at hexG
      simp only [Except.bind] at hexG
      injection hexG with he2
      subst he2
      simp [proxy_to_chatgpt, proxy_to_chatgpt_try, pyDictGet, Bind.bind, Except.bind,
        h200G, hj]
    | ok body =>
      rw [hj] at hexG
      simp only [Except.bind] at hexG
      simp [proxy_to_chatgpt, proxy_to_chatgpt_try, pyDictGet, Bind.bind, Except.bind,
        h200G, hj, hexG]

/-- C5 amended witness: a 200 reply carrying the empty JSON object makes
each extraction raise a KeyError, which both handlers fold into the
uniform error envelope with HTTP 500. -/
theorem extraction_failure_folded_to_envelope_witness :
    proxy_to_claude "k" (Except.ok (Json.obj []))
        (fun _ => Except.ok ⟨200, "\x7b\x7d", Except.ok (Json.obj [])⟩)
      = (500, Json.obj
          [ ("success", Json.bool false)
          , ("error", Json.str "\x27content\x27") ]) ∧
    proxy_to_chatgpt "k" (Except.ok (Json.obj []))
        (fun _ => Except.ok ⟨200, "\x7b\x7d", Except.ok (Json.obj [])⟩)
      = (500, Json.obj
          [ ("success", Json.bool false)
          , ("error", Json.str "\x27choices\x27") ]) :=
  extraction_failure_folded_to_envelope "k" "k" []
    ⟨200, "\x7b\x7d", Except.ok (Json.obj [])⟩
    ⟨200, "\x7b\x7d", Except.ok (Json.obj [])⟩
    ⟨"\x27content\x27"⟩ ⟨"\x27choices\x27"⟩
    rfl rfl rfl rfl
